import Mathlib

/-!
Verification of the Zen-Browser-Agent automation orchestrator.

The development shallowly embeds the relevant parts of the repository:
the rule-based planner and candidate matcher of the FastAPI agent server
(`app/planner/matcher.py`, `app/planner/strategies/rule_based.py`), the
background orchestrator of the browser extension
(`zen_extension/background.js`: safety gate, circuit breaker, message
handlers), the observation collector of the content script
(`zen_extension/contentScript.js`), and the step-status bookkeeping of the
sidebar hook (`useAgent.ts`).

Machine strings are embedded as Lean `String`; all string primitives the
sources use (lowercasing, trimming, substring search, slicing) are defined
below over the underlying character list so that every definition evaluates
inside the kernel.  Timestamps are `Nat` milliseconds.  External effects
(the DOM, the network) enter as explicit function parameters, so each
handler is a pure state-transition function.
-/

namespace ZenAgent

/-! ## String primitives

List-based models of the string operations used by the sources
(JavaScript `toLowerCase`, `trim`, `includes`, `startsWith`, `slice`;
Python `lower`, `strip`, `in`, `find`). -/

/-- JavaScript `s.toLowerCase()` and Python `s.lower()`. -/
def strToLower (s : String) : String := String.mk (s.data.map Char.toLower)

/-- JavaScript `hay.includes(need)` and Python `need in hay`:
substring containment. -/
def containsSub (hay need : String) : Bool :=
  (List.range (hay.data.length + 1)).any (fun i => need.data.isPrefixOf (hay.data.drop i))

/-- JavaScript `s.startsWith(p)`. -/
def strStartsWith (s p : String) : Bool := p.data.isPrefixOf s.data

/-- JavaScript `s.slice(0, n)`: keep the first `n` characters. -/
def strTake (s : String) (n : Nat) : String := String.mk (s.data.take n)

/-- JavaScript / Python `s[n:]` and `goal.slice(n)`: drop the first `n`
characters. -/
def strDrop (s : String) (n : Nat) : String := String.mk (s.data.drop n)

/-- Python `s.strip(chars)`: remove any of the given characters from both
ends. -/
def pyStripChars (s : String) (chars : List Char) : String :=
  String.mk (((s.data.dropWhile (fun c => chars.contains c)).reverse.dropWhile
    (fun c => chars.contains c)).reverse)

/-- JavaScript `s.trim()` and Python `s.strip()`: remove whitespace from
both ends. -/
def strTrim (s : String) : String :=
  String.mk (((s.data.dropWhile Char.isWhitespace).reverse.dropWhile
    Char.isWhitespace).reverse)

/-- Python `" ".join(fields)`. -/
def joinSpace (fields : List String) : String := String.intercalate " " fields

/-- Python `hay.find(need)`: index of the first occurrence, `-1` when the
needle does not occur. -/
def pyFind (hay need : String) : Int :=
  match (List.range (hay.data.length + 1)).find?
      (fun i => need.data.isPrefixOf (hay.data.drop i)) with
  | some i => (i : Int)
  | none => -1

/-- JavaScript truthiness of an optional string field: present and
non-empty. -/
def jsTruthy (o : Option String) : Bool :=
  match o with
  | some s => s ≠ ""
  | none => false

/-! ## Data model

Shapes shared by the server (Pydantic models in `app/schemas.py`) and the
extension.  Optional Pydantic string fields default to the empty string,
matching how the JavaScript side reads them (`step.selector || ""`). -/

/-- One interactive page element, as produced by `extractCandidates` in
`contentScript.js` and consumed by the matcher (`Candidate` in
`app/schemas.py`). -/
structure Candidate where
  selector : String
  tag : String
  text : String := ""
  ariaLabel : String := ""
  placeholder : String := ""
  name : String := ""
  type : String := ""
  href : String := ""
deriving Repr, DecidableEq

/-- One plan step (`Step` in `app/schemas.py`); `tool` is kept as a raw
string because `background.js` dispatches on it dynamically and must
handle unknown tags. -/
structure Step where
  tool : String
  selector : String := ""
  text : String := ""
  deltaY : Option Int := none
  url : String := ""
  note : String := ""
deriving Repr, DecidableEq

/-- The observation produced by the `EXTRACT` tool of the content script
(`PageSnapshot` in `app/schemas.py`). -/
structure PageSnapshot where
  url : String := ""
  title : String := ""
  text : String := ""
  candidates : List Candidate := []
deriving Repr, DecidableEq

/-- The planner result (`PlanResponse` in `app/schemas.py`). -/
structure PlanResponse where
  summary : String
  steps : List Step
deriving Repr, DecidableEq

/-! ## Candidate matcher (`app/planner/matcher.py`) -/

/-- The keyword normalization at the head of `best_match`:
`[k.lower().strip() for k in keywords if k and k.strip()]`. -/
def keywordsLower (keywords : List String) : List String :=
  keywords.filterMap
    (fun k => if k ≠ "" && strTrim k ≠ "" then some (strTrim (strToLower k)) else none)

/-- The searchable text of a candidate:
`" ".join([text, ariaLabel, placeholder, name, href]).lower()`. -/
def candidateHaystack (c : Candidate) : String :=
  strToLower (joinSpace [c.text, c.ariaLabel, c.placeholder, c.name, c.href])

/-- The per-candidate score of `best_match`: +2 per keyword found in the
haystack, +1 each for a non-empty `ariaLabel`, `placeholder`, `text`. -/
def candidateScore (keywordsL : List String) (c : Candidate) : Int :=
  let hay := candidateHaystack c
  2 * ((keywordsL.countP (fun k => containsSub hay k) : Nat) : Int)
    + (if c.ariaLabel ≠ "" then 1 else 0)
    + (if c.placeholder ≠ "" then 1 else 0)
    + (if c.text ≠ "" then 1 else 0)

/-- The scan loop of `best_match`: walk the candidates in order, skip the
ones whose tag is not allowed, keep the candidate with the strictly
highest score seen so far (`if score > best_score`).  `best` starts as
`None` and `best_score` as `-1`. -/
def bestMatchGo (includeTags : List String) (keywordsL : List String) :
    List Candidate → Option Candidate → Int → Option Candidate
  | [], best, _ => best
  | c :: rest, best, bestScore =>
    if includeTags.contains (strToLower c.tag) then
      let score := candidateScore keywordsL c
      if bestScore < score then bestMatchGo includeTags keywordsL rest (some c) score
      else bestMatchGo includeTags keywordsL rest best bestScore
    else bestMatchGo includeTags keywordsL rest best bestScore

/-- Model of `matcher.best_match`.  Python uses a set of tags; only membership is
observed, so the embedding keeps a list. -/
def best_match (candidates : List Candidate) (includeTags : List String)
    (keywords : List String) : Option Candidate :=
  let kl := keywordsLower keywords
  if kl.isEmpty then none
  else bestMatchGo includeTags kl candidates none (-1)

/-- Model of `matcher.find_search_input`. -/
def find_search_input (candidates : List Candidate) : Option Candidate :=
  best_match candidates ["input", "textarea"] ["search", "q", "query", "find", "looking for"]

/-- Model of `matcher.find_submit_button`. -/
def find_submit_button (candidates : List Candidate) : Option Candidate :=
  best_match candidates ["button", "a", "input"] ["search", "submit", "go", "find"]

/-- Model of `matcher.find_clickable`. -/
def find_clickable (candidates : List Candidate) (target : String) : Option Candidate :=
  best_match candidates ["button", "a", "input"] [target]

/-! ## Rule-based planner (`app/planner/strategies/rule_based.py`) -/

/-- Model of `RuleBasedPlanner._handle_search`. -/
def handleSearch (goal goalLower : String) (candidates : List Candidate) : PlanResponse :=
  let idx := pyFind goalLower "search"
  let stripped := pyStripChars (strDrop goal (idx + 6).toNat) [' ', ':', ',', '-']
  let query := if stripped = "" then goal else stripped
  match find_search_input candidates with
  | none => { summary := "Could not find a search input on this page.", steps := [] }
  | some searchInput =>
    let base : List Step :=
      [{ tool := "CLICK", selector := searchInput.selector, note := "Focus the search box" },
       { tool := "TYPE", selector := searchInput.selector, text := query,
         note := "Type: \"" ++ query ++ "\"" }]
    let steps :=
      match find_submit_button candidates with
      | some submitBtn =>
        base ++ [{ tool := "CLICK", selector := submitBtn.selector, note := "Submit search" }]
      | none => base
    { summary := "Planned search for \"" ++ query ++ "\".", steps := steps }

/-- Model of `RuleBasedPlanner._handle_scroll`. -/
def handleScroll : PlanResponse :=
  { summary := "Scrolling down.",
    steps := [{ tool := "SCROLL", deltaY := some 900, note := "Scroll down" }] }

/-- Model of `RuleBasedPlanner._handle_click`. -/
def handleClick (goal : String) (candidates : List Candidate) : PlanResponse :=
  let target := strTrim (strDrop goal 6)
  match find_clickable candidates target with
  | none => { summary := "Could not find element matching \"" ++ target ++ "\".", steps := [] }
  | some btn =>
    { summary := "Clicking \"" ++ target ++ "\".",
      steps := [{ tool := "CLICK", selector := btn.selector,
                  note := "Click something matching \"" ++ target ++ "\"" }] }

/-- Model of `RuleBasedPlanner.plan`: goal-pattern dispatch (search, then scroll,
then click, else no confident plan). -/
def rulePlan (userRequest : String) (page : PageSnapshot) : PlanResponse :=
  let goal := strTrim userRequest
  let goalLower := strToLower goal
  let candidates := page.candidates
  if containsSub goalLower "search" then handleSearch goal goalLower candidates
  else if ["scroll", "go down", "down"].any (fun k => containsSub goalLower k) then handleScroll
  else if strStartsWith goalLower "click " then handleClick goal candidates
  else
    { summary := "No confident automation plan. Try: \x27search <term>\x27, \x27click <button text>\x27, or \x27scroll down\x27.",
      steps := [] }

/-! ## Safety gate (`background.js`, `isRiskyStep`) -/

/-- The fixed risk-word list of `isRiskyStep`. -/
def riskyWords : List String :=
  ["pay", "checkout", "purchase", "order", "delete", "cancel", "unsubscribe",
   "send", "publish", "confirm"]

/-- Model of `isRiskyStep(step, pageSnapshot)`: block if the lowercased page URL
contains a risk word; otherwise block a TYPE step whose selector mentions
password/otp/2fa, and a CLICK step whose note contains a risk word. -/
def isRiskyStep (step : Step) (page : PageSnapshot) : Bool :=
  let url := strToLower page.url
  if riskyWords.any (fun w => containsSub url w) then true
  else if step.tool = "TYPE" then
    let sel := strToLower step.selector
    containsSub sel "password" || containsSub sel "otp" || containsSub sel "2fa"
  else if step.tool = "CLICK" then
    let note := strToLower step.note
    riskyWords.any (fun w => containsSub note w)
  else false

/-! ## Circuit breaker (`background.js`) -/

/-- The `circuitBreaker` module state.  `lastFailure` starts at `0`,
matching how the JavaScript arithmetic treats the initial `null`. -/
structure CircuitBreaker where
  failures : Nat
  lastFailure : Nat
  isOpen : Bool
  cooldownMs : Nat
  threshold : Nat
deriving Repr, DecidableEq

/-- The initial breaker: closed, zero failures, 5 minute cooldown,
threshold 3. -/
def initialBreaker : CircuitBreaker :=
  { failures := 0, lastFailure := 0, isOpen := false,
    cooldownMs := 5 * 60 * 1000, threshold := 3 }

/-- The user-facing message thrown by `checkCircuitBreaker` while the
breaker is open, with `N = Math.ceil(remainingMs / 1000)`. -/
def unavailableMessage (remainingMs : Nat) : String :=
  "Agent server temporarily unavailable. Please try again in " ++
    toString ((remainingMs + 999) / 1000) ++ " seconds."

/-- Model of `checkCircuitBreaker()`: pass through when closed; reset and pass when
the cooldown has elapsed since the last failure; otherwise throw the
retry-in-N-seconds error. -/
def checkCircuitBreaker (cb : CircuitBreaker) (now : Nat) :
    Except String CircuitBreaker :=
  if !cb.isOpen then .ok cb
  else if cb.cooldownMs < now - cb.lastFailure then
    .ok { cb with isOpen := false, failures := 0 }
  else .error (unavailableMessage (cb.cooldownMs - (now - cb.lastFailure)))

/-- Model of `recordFailure()`: bump the failure count, stamp the time, open the
breaker once the count reaches the threshold. -/
def recordFailure (cb : CircuitBreaker) (now : Nat) : CircuitBreaker :=
  let f := cb.failures + 1
  { cb with
    failures := f
    lastFailure := now
    isOpen := if cb.threshold ≤ f then true else cb.isOpen }

/-- Model of `recordSuccess()`: reset the count and close the breaker. -/
def recordSuccess (cb : CircuitBreaker) : CircuitBreaker :=
  { cb with failures := 0, isOpen := false }

/-! ## Planning service client (`background.js`, `callAgentServer`) -/

/-- The `maxRetries` constant of `callAgentServer`. -/
def maxRetries : Nat := 3

/-- Everything observable about one `callAgentServer` invocation: the
parsed plan or the error message, the breaker afterwards, the connection
status afterwards, and how many network (fetch) attempts were consumed. -/
structure CallOutcome where
  plan : Option PlanResponse
  errorMsg : Option String
  breaker : CircuitBreaker
  connection : String
  networkAttempts : Nat
deriving Repr, DecidableEq

/-- Model of `callAgentServer(payload)`.  The network is external, so the result of
the i-th fetch attempt enters as a parameter (`some plan` when the attempt
succeeds and parses, `none` when it fails).  The breaker is consulted
before any attempt; the first successful attempt returns and records
success; exhausting all attempts records one failure.  The exact text of
the exhaustion error depends on the transport error and is abstracted by a
fixed representative; no claim inspects it. -/
def callAgentServer (cb : CircuitBreaker) (conn : String) (now : Nat)
    (attemptResult : Nat → Option PlanResponse) : CallOutcome :=
  match checkCircuitBreaker cb now with
  | .error msg =>
    { plan := none, errorMsg := some msg, breaker := cb, connection := conn,
      networkAttempts := 0 }
  | .ok cb1 =>
    match (List.range maxRetries).find? (fun i => (attemptResult i).isSome) with
    | some i =>
      { plan := attemptResult i, errorMsg := none, breaker := recordSuccess cb1,
        connection := "connected", networkAttempts := i + 1 }
    | none =>
      { plan := none,
        errorMsg := some "Cannot connect to agent server. Please ensure the server is running (python run.py).",
        breaker := recordFailure cb1 now, connection := "disconnected",
        networkAttempts := maxRetries }

/-- The breaker left behind by one planning call whose every network
attempt failed. -/
def failedCall (cb : CircuitBreaker) (conn : String) (now : Nat) : CircuitBreaker :=
  (callAgentServer cb conn now (fun _ => none)).breaker

/-- The breaker after three consecutive exhausted planning calls starting
from the initial state. -/
def breakerAfterThreeFailures (conn : String) (t1 t2 t3 : Nat) : CircuitBreaker :=
  failedCall (failedCall (failedCall initialBreaker conn t1) conn t2) conn t3

/-! ## Plan state and step runner (`background.js` message handlers) -/

/-- The module-level `planState` of `background.js`. -/
structure PlanState where
  steps : List Step
  idx : Nat
  summary : String
deriving Repr, DecidableEq

/-- The mutable background state touched by the message handlers. -/
structure BackgroundState where
  plan : PlanState
  breaker : CircuitBreaker
deriving Repr, DecidableEq

/-- The `{ok, error?}` result shape of the content-script tools and of
`executeStep`. -/
structure ExecResult where
  ok : Bool
  error : Option String := none
deriving Repr, DecidableEq

/-- Model of `executeStep(tabId, step)`: CLICK/TYPE/SCROLL are delegated to the
content script (an external effect, passed in as `content`); NAVIGATE
updates the tab and reports ok; anything else reports the unknown-tool
error instead of raising. -/
def executeStep (content : Step → ExecResult) (step : Step) : ExecResult :=
  if step.tool = "CLICK" || step.tool = "TYPE" || step.tool = "SCROLL" then
    content step
  else if step.tool = "NAVIGATE" then { ok := true }
  else { ok := false, error := some ("Unknown tool: " ++ step.tool) }

/-- The response shape of the `RUN_NEXT_STEP` handler; absent JSON fields
are `none`. -/
structure RunNextResponse where
  done : Option Bool := none
  message : Option String := none
  ranIndex : Option Nat := none
  error : Option String := none
deriving Repr, DecidableEq

/-- The refusal message of the safety gate in the `RUN_NEXT_STEP`
handler. -/
def blockedMessage : String :=
  "Blocked: risky step (login/checkout/delete/send/publish). Do this manually or refine request."

/-- The `RUN_NEXT_STEP` handler: re-observe (`page` is the fresh EXTRACT
result), finish when no steps are left, refuse a risky step without
touching any state, otherwise execute the step at the cursor, advance the
cursor, and report the outcome with the index that ran. -/
def handleRunNext (content : Step → ExecResult) (st : BackgroundState)
    (page : PageSnapshot) : RunNextResponse × BackgroundState :=
  if h : st.plan.idx < st.plan.steps.length then
    let step := st.plan.steps.get ⟨st.plan.idx, h⟩
    if isRiskyStep step page then
      ({ error := some blockedMessage }, st)
    else
      let result := executeStep content step
      let ranIndex := st.plan.idx
      let st1 : BackgroundState :=
        { st with plan := { st.plan with idx := st.plan.idx + 1 } }
      if !result.ok && jsTruthy result.error then
        ({ ranIndex := some ranIndex, error := result.error }, st1)
      else
        ({ ranIndex := some ranIndex
           message := some (if step.note = "" then step.tool ++ " executed." else step.note)
           done := some (st1.plan.steps.length ≤ st1.plan.idx) }, st1)
  else
    ({ done := some true, message := some "No steps left." }, st)

/-! ## Planning request handler (`background.js`, `AGENT_REQUEST`) -/

/-- The body POSTed to the planning backend. -/
structure PlanPayload where
  userRequest : String
  page : PageSnapshot
  screenshotDataUrl : Option String
deriving Repr, DecidableEq

/-- Model of `captureScreenshot()`: a throwing capture is swallowed and becomes
`null`. -/
def captureScreenshot (raw : Except String String) : Option String :=
  match raw with
  | .ok dataUrl => some dataUrl
  | .error _ => none

/-- The restricted-URL test at the head of the `AGENT_REQUEST` handler:
`!tab.url || startsWith` one of the privileged schemes.  `none` models a
tab with no URL. -/
def restrictedUrl (url : Option String) : Bool :=
  match url with
  | none => true
  | some u =>
    u = "" || strStartsWith u "about:" || strStartsWith u "moz-extension:" ||
      strStartsWith u "view-source:" || strStartsWith u "chrome:"

/-- The fixed refusal for restricted pages. -/
def refusalMessage : String :=
  "I cannot run on this page. Please try a normal website (e.g. google.com)."

/-- The response shape of the `AGENT_REQUEST` handler. -/
structure AgentResponse where
  summary : Option String := none
  steps : Option (List Step) := none
  error : Option String := none
deriving Repr, DecidableEq

/-- One `AGENT_REQUEST` round, together with the effects it performed:
whether the page was observed (EXTRACT), which payload (if any) went to
the planning backend, and the plan state afterwards. -/
structure AgentOutcome where
  response : AgentResponse
  observed : Bool
  sentPayload : Option PlanPayload
  plan : PlanState
deriving Repr, DecidableEq

/-- The `AGENT_REQUEST` handler: refuse restricted URLs before observing
or calling out; otherwise observe, capture the screenshot (tolerating
failure), call the planning backend (`server`, external), store the new
plan with the cursor reset to 0, and echo summary and steps.  A backend
error is caught by the outer handler and surfaced as `{error}`. -/
def handleAgentRequest (st : PlanState) (text : String) (tabUrl : Option String)
    (page : PageSnapshot) (shot : Except String String)
    (server : PlanPayload → Except String PlanResponse) : AgentOutcome :=
  if restrictedUrl tabUrl then
    { response := { error := some refusalMessage }, observed := false,
      sentPayload := none, plan := st }
  else
    let payload : PlanPayload :=
      { userRequest := text, page := page, screenshotDataUrl := captureScreenshot shot }
    match server payload with
    | .error e =>
      { response := { error := some e }, observed := true,
        sentPayload := some payload, plan := st }
    | .ok planResp =>
      { response := { summary := some planResp.summary, steps := some planResp.steps },
        observed := true, sentPayload := some payload,
        plan := { steps := planResp.steps, idx := 0, summary := planResp.summary } }

/-! ## Observation collector (`contentScript.js`) -/

/-- The constant `MIN_VISIBLE_SIZE`. -/
def MIN_VISIBLE_SIZE : Int := 6

/-- The constant `MAX_CANDIATES` (sic, spelled as in the source). -/
def MAX_CANDIATES : Nat := 60

/-- The constant `MAX_VISIBLE_TEXT_LENGTH`. -/
def MAX_VISIBLE_TEXT_LENGTH : Nat := 40000

/-- What the collector reads off one DOM element: bounding rectangle,
computed style, tag and raw attribute values (`""` for an absent
attribute, as in `el.getAttribute(..) || ""`).  Rectangle coordinates are
embedded as integers; the claims do not depend on fractional pixels. -/
structure RawElement where
  tagName : String
  rectWidth : Int
  rectHeight : Int
  rectTop : Int
  rectBottom : Int
  rectLeft : Int
  rectRight : Int
  display : String
  visibility : String
  opacity : String
  innerText : String
  textContent : String
  ariaLabel : String
  placeholder : String
  nameAttr : String
  typeAttr : String
  href : String
deriving Repr, DecidableEq

/-- The window dimensions consulted by `isVisible`. -/
structure Viewport where
  innerHeight : Int
  innerWidth : Int
deriving Repr, DecidableEq

/-- Model of `isVisible(el)`: minimum rendered size, at least partly inside the
viewport, and not hidden by computed style. -/
def isVisible (vp : Viewport) (el : RawElement) : Bool :=
  if el.rectWidth < MIN_VISIBLE_SIZE || el.rectHeight < MIN_VISIBLE_SIZE then false
  else if el.rectBottom < 0 || el.rectRight < 0 then false
  else if vp.innerHeight < el.rectTop || vp.innerWidth < el.rectLeft then false
  else el.display ≠ "none" && el.visibility ≠ "hidden" && el.opacity ≠ "0"

/-- JavaScript `a || b` on strings. -/
def jsOr (a b : String) : String := if a ≠ "" then a else b

/-- The candidate record pushed by `extractCandidates` for one visible
element.  `selectorFor` walks the live DOM tree (ids, names, ancestor
positions) and is DOM-global, so it enters as the parameter `sel`; the
claims constrain every other field. -/
def mkCandidate (sel : RawElement → String) (el : RawElement) : Candidate :=
  { selector := sel el
    tag := strToLower el.tagName
    text := strTake (strTrim (jsOr el.innerText (jsOr el.textContent ""))) 80
    ariaLabel := strTake (strTrim el.ariaLabel) 80
    placeholder := strTake (strTrim el.placeholder) 80
    name := strTake (strTrim el.nameAttr) 80
    type := strTake (strTrim el.typeAttr) 30
    href := strTake (strTrim el.href) 120 }

/-- The loop of `extractCandidates`: skip invisible elements, push the
candidate record, and break once the output holds `MAX_CANDIATES`
entries.  `count` is the number of entries pushed so far. -/
def extractCandidatesGo (sel : RawElement → String) (vp : Viewport) :
    List RawElement → Nat → List Candidate
  | [], _ => []
  | el :: rest, count =>
    if isVisible vp el then
      let c := mkCandidate sel el
      if MAX_CANDIATES ≤ count + 1 then [c]
      else c :: extractCandidatesGo sel vp rest (count + 1)
    else extractCandidatesGo sel vp rest count

/-- Model of `extractCandidates()` over the interactive elements found in document
order. -/
def extractCandidates (sel : RawElement → String) (vp : Viewport)
    (els : List RawElement) : List Candidate :=
  extractCandidatesGo sel vp els 0

/-- Model of `visibleText()`: the body text truncated to the cap. -/
def visibleText (bodyInnerText : String) : String :=
  strTake bodyInnerText MAX_VISIBLE_TEXT_LENGTH

/-! ## Sidebar step-status bookkeeping (`useAgent.ts`, `runNextStep`) -/

/-- The per-step status kept by the sidebar. -/
inductive StepStatus
  | pending
  | running
  | completed
  | failed
deriving Repr, DecidableEq

/-- How `useAgent.runNextStep` folds a background response into its state:
when the response carries a numeric `ranIndex`, the step at that index
becomes `failed` when the response carries an error and `completed`
otherwise, and the sidebar cursor advances; without a `ranIndex` nothing
changes. -/
def applyStepResult (statuses : List StepStatus) (currentIndex : Nat)
    (resp : RunNextResponse) : List StepStatus × Nat :=
  match resp.ranIndex with
  | some ri =>
    (statuses.mapIdx
      (fun i s => if i = ri then (if jsTruthy resp.error then .failed else .completed) else s),
     currentIndex + 1)
  | none => (statuses, currentIndex)

/-! ## Scenario fixtures -/

/-- The candidate list of the spec search scenario: a search input `#q`
and a search button `#btn`. -/
def searchScenarioPage : PageSnapshot :=
  { candidates := [{ selector := "#q", tag := "input", placeholder := "Search" },
                   { selector := "#btn", tag := "button", text := "Search" }] }

/-- A candidate whose only score comes from the +1 placeholder presence
bonus: its searchable text shares nothing with the keyword. -/
def presenceOnlyCandidate : Candidate :=
  { selector := "#x", tag := "input", placeholder := "zzz" }

/-- A candidate whose tag is outside every allowed-tag set used by the
planner. -/
def noTagCandidate : Candidate := { selector := "#y", tag := "div" }

/-- C1 (counterexample): on goal "search cats" with candidates #q (input,
placeholder "Search") and #btn (button, text "Search"), the third planned
step clicks #q, not #btn as the claim states: both score 3 for the submit
search and the strict `score > best_score` comparison keeps the earlier
candidate, which is the search input itself. -/
theorem c1_search_scenario_counterexample :
    ((rulePlan "search cats" searchScenarioPage).steps.get? 2).map Step.selector
        = some "#q" ∧
      ("#q" : String) ≠ "#btn" := by
  decide

/-- C1 (amended): on the scenario goal and candidates the planner returns
the summary `Planned search for "cats".` and exactly three steps, CLICK on
#q, TYPE "cats" into #q, and CLICK on #q, in that order: the submit click
lands on #q because the tie between the input and the button is resolved
toward the earlier candidate. -/
theorem c1_search_scenario_amended :
    rulePlan "search cats" searchScenarioPage =
      { summary := "Planned search for \"cats\".",
        steps := [{ tool := "CLICK", selector := "#q", note := "Focus the search box" },
                  { tool := "TYPE", selector := "#q", text := "cats", note := "Type: \"cats\"" },
                  { tool := "CLICK", selector := "#q", note := "Submit search" }] } := by
  decide

/-- C2 (counterexample): a candidate with an allowed tag whose haystack
contains no keyword at all is still returned by `best_match`: its score 1
comes only from the placeholder presence bonus, and 1 beats the initial
best score of -1. -/
theorem c2_best_match_counterexample :
    best_match [presenceOnlyCandidate] ["input"] ["search"] = some presenceOnlyCandidate ∧
      containsSub (candidateHaystack presenceOnlyCandidate) "search" = false ∧
      candidateScore (keywordsLower ["search"]) presenceOnlyCandidate = 1 := by
  decide

/-- Every candidate score is non-negative: the keyword count and the three
presence bonuses are each non-negative. -/
theorem candidateScore_nonneg (kl : List String) (c : Candidate) :
    0 ≤ candidateScore kl c := by
  unfold candidateScore
  refine add_nonneg (add_nonneg (add_nonneg ?_ ?_) ?_) ?_
  · positivity
  · split <;> norm_num
  · split <;> norm_num
  · split <;> norm_num

/-- Once the scan loop holds a best candidate it never returns to none. -/
theorem bestMatchGo_isSome_of_some (tags kl : List String) :
    ∀ (l : List Candidate) (c : Candidate) (s : Int),
      (bestMatchGo tags kl l (some c) s).isSome = true := by
  intro l
  induction l with
  | nil => intro c s; rfl
  | cons d rest ih =>
    intro c s
    by_cases hd : strToLower d.tag ∈ tags
    · by_cases hs : s < candidateScore kl d
      · simpa [bestMatchGo, hd, hs] using ih d (candidateScore kl d)
      · simpa [bestMatchGo, hd, hs] using ih c s
    · simpa [bestMatchGo, hd] using ih c s

/-- A scan that never meets an allowed tag keeps its running best. -/
theorem bestMatchGo_skip_all (tags kl : List String) :
    ∀ (l : List Candidate) (best : Option Candidate) (s : Int),
      (∀ c ∈ l, strToLower c.tag ∉ tags) →
      bestMatchGo tags kl l best s = best := by
  intro l
  induction l with
  | nil => intro best s _; rfl
  | cons d rest ih =>
    intro best s hall
    have hd : strToLower d.tag ∉ tags := hall d (by simp)
    simpa [bestMatchGo, hd] using ih best s (fun c hc => hall c (by simp [hc]))

/-- A scan that starts from none and meets at least one allowed tag ends
with some candidate, because every computed score beats the initial -1. -/
theorem bestMatchGo_isSome_of_mem (tags kl : List String) :
    ∀ (l : List Candidate), (∃ c ∈ l, strToLower c.tag ∈ tags) →
      (bestMatchGo tags kl l none (-1)).isSome = true := by
  intro l
  induction l with
  | nil => rintro ⟨c, hc, -⟩; cases hc
  | cons d rest ih =>
    rintro ⟨c, hc, htag⟩
    by_cases hd : strToLower d.tag ∈ tags
    · have hscore : (-1 : Int) < candidateScore kl d :=
        lt_of_lt_of_le (by norm_num) (candidateScore_nonneg kl d)
      simpa [bestMatchGo, hd, hscore] using
        bestMatchGo_isSome_of_some tags kl rest d (candidateScore kl d)
    · rcases List.mem_cons.mp hc with rfl | hmem
      · exact absurd htag hd
      · simpa [bestMatchGo, hd] using ih ⟨c, hmem, htag⟩

/-- C2 (amended): `best_match` returns none over an empty candidate list,
and over a list in which no candidate carries an allowed tag; but whenever
some candidate carries an allowed tag and the normalized keyword list is
non-empty, a candidate is returned — there is no score floor, so presence
bonuses alone (or even a zero score) qualify a candidate. -/
theorem c2_best_match_amended :
    (∀ tags kws, best_match [] tags kws = none) ∧
    (∀ cands tags kws, (∀ c ∈ cands, strToLower c.tag ∉ tags) →
        best_match cands tags kws = none) ∧
    (∀ cands tags kws c, c ∈ cands → strToLower c.tag ∈ tags →
        keywordsLower kws ≠ [] → (best_match cands tags kws).isSome = true) := by
  refine ⟨?_, ?_, ?_⟩
  · intro tags kws
    simp [best_match, bestMatchGo]
  · intro cands tags kws hall
    by_cases hkl : (keywordsLower kws).isEmpty <;>
      simp [best_match, hkl, bestMatchGo_skip_all tags _ cands none (-1) hall]
  · intro cands tags kws c hc htag hkl
    have hne : (keywordsLower kws).isEmpty = false := by
      simpa [List.isEmpty_iff] using hkl
    simpa [best_match, hne] using
      bestMatchGo_isSome_of_mem tags (keywordsLower kws) cands ⟨c, hc, htag⟩

/-- Witness for C2 (amended) at concrete inputs. -/
theorem c2_best_match_amended_witness :
    best_match [] ["input"] ["search"] = none ∧
      best_match [noTagCandidate] ["input"] ["search"] = none ∧
      (best_match [presenceOnlyCandidate] ["input"] ["search"]).isSome = true :=
  ⟨c2_best_match_amended.1 ["input"] ["search"],
   c2_best_match_amended.2.1 [noTagCandidate] ["input"] ["search"] (by decide),
   c2_best_match_amended.2.2 [presenceOnlyCandidate] ["input"] ["search"]
     presenceOnlyCandidate (by decide) (by decide) (by decide)⟩

/-- Three exhausted planning calls from the initial state leave exactly
three recorded failures, stamped with the last failure time, and an open
breaker. -/
theorem breakerAfterThreeFailures_eq (conn : String) (t1 t2 t3 : Nat) :
    breakerAfterThreeFailures conn t1 t2 t3 =
      { failures := 3, lastFailure := t3, isOpen := true,
        cooldownMs := 5 * 60 * 1000, threshold := 3 } := by
  rfl

/-- A call on an open breaker within the cooldown window fails at the
pre-flight check: the retry-in-N-seconds error comes back, the breaker and
the connection status are untouched, and no network attempt happens. -/
theorem callAgentServer_open_within (cb : CircuitBreaker) (conn : String) (now : Nat)
    (o : Nat → Option PlanResponse)
    (hOpen : cb.isOpen = true) (hIn : now - cb.lastFailure ≤ cb.cooldownMs) :
    callAgentServer cb conn now o =
      { plan := none,
        errorMsg := some (unavailableMessage (cb.cooldownMs - (now - cb.lastFailure))),
        breaker := cb, connection := conn, networkAttempts := 0 } := by
  have h2 : ¬ (cb.cooldownMs < now - cb.lastFailure) := not_lt.mpr hIn
  simp [callAgentServer, checkCircuitBreaker, hOpen, h2]

/-- A call on an open breaker after the cooldown has elapsed consumes at
least one network attempt again. -/
theorem callAgentServer_open_elapsed (cb : CircuitBreaker) (conn : String) (now : Nat)
    (hOpen : cb.isOpen = true) (hOut : cb.cooldownMs < now - cb.lastFailure) :
    1 ≤ (callAgentServer cb conn now (fun _ => none)).networkAttempts := by
  have hf : List.find? (fun _ => (false : Bool)) (List.range 3) = none := rfl
  simp [callAgentServer, checkCircuitBreaker, hOpen, hOut, maxRetries, hf]

/-- Any call that does not come back with an error leaves the breaker with
zero consecutive failures and closed. -/
theorem callAgentServer_success_resets (cb : CircuitBreaker) (conn : String) (now : Nat)
    (o : Nat → Option PlanResponse)
    (h : (callAgentServer cb conn now o).errorMsg = none) :
    (callAgentServer cb conn now o).breaker.failures = 0 ∧
      (callAgentServer cb conn now o).breaker.isOpen = false := by
  unfold callAgentServer at *
  rcases hcb : checkCircuitBreaker cb now with msg | cb1 <;> simp [hcb] at h ⊢
  rcases hf : (List.range maxRetries).find? (fun i => (o i).isSome) with - | i <;>
    simp [hf] at h ⊢
  simp [recordSuccess]

/-- C3: the breaker is still closed after two exhausted calls and opens
after exactly the third (threshold 3); while open and within the 5-minute
cooldown of the last failure, a planning call fails immediately with the
retry-in-N-seconds message, consumes no network attempt and changes no
state; once the cooldown has elapsed a network attempt is made again; and
any non-erroring call resets the consecutive-failure count to 0.  A
"failed attempt" at breaker granularity is one planning call that
exhausted its internal fetch retries, which is when `recordFailure`
runs. -/
theorem c3_circuit_breaker (conn conn1 conn2 conn3 : String)
    (t1 t2 t3 now1 now2 : Nat) (o : Nat → Option PlanResponse)
    (hIn : now1 - t3 ≤ 5 * 60 * 1000) (hOut : 5 * 60 * 1000 < now2 - t3) :
    (failedCall (failedCall initialBreaker conn t1) conn t2).isOpen = false ∧
    (breakerAfterThreeFailures conn t1 t2 t3).isOpen = true ∧
    (breakerAfterThreeFailures conn t1 t2 t3).failures = 3 ∧
    callAgentServer (breakerAfterThreeFailures conn t1 t2 t3) conn1 now1 o =
      { plan := none,
        errorMsg := some (unavailableMessage (5 * 60 * 1000 - (now1 - t3))),
        breaker := breakerAfterThreeFailures conn t1 t2 t3,
        connection := conn1, networkAttempts := 0 } ∧
    1 ≤ (callAgentServer (breakerAfterThreeFailures conn t1 t2 t3) conn2 now2
          (fun _ => none)).networkAttempts ∧
    (∀ (cb : CircuitBreaker) (now : Nat) (oo : Nat → Option PlanResponse),
      (callAgentServer cb conn3 now oo).errorMsg = none →
        (callAgentServer cb conn3 now oo).breaker.failures = 0 ∧
          (callAgentServer cb conn3 now oo).breaker.isOpen = false) := by
  refine ⟨rfl, rfl, rfl, ?_, ?_, ?_⟩
  · simpa [breakerAfterThreeFailures_eq] using
      callAgentServer_open_within (breakerAfterThreeFailures conn t1 t2 t3) conn1 now1 o
        (by rw [breakerAfterThreeFailures_eq]) (by rw [breakerAfterThreeFailures_eq]; exact hIn)
  · exact callAgentServer_open_elapsed (breakerAfterThreeFailures conn t1 t2 t3) conn2 now2
      (by rw [breakerAfterThreeFailures_eq]) (by rw [breakerAfterThreeFailures_eq]; exact hOut)
  · intro cb now oo h
    exact callAgentServer_success_resets cb conn3 now oo h

/-- Witness for C3 at concrete times: third failure at time 0, a blocked
call at time 0 and a permitted call at time 300001 (one past the 5-minute
cooldown). -/
theorem c3_circuit_breaker_witness :
    ((0 : Nat) - 0 ≤ 5 * 60 * 1000) ∧ (5 * 60 * 1000 < (300001 : Nat) - 0) ∧
    ((failedCall (failedCall initialBreaker "s" 0) "s" 0).isOpen = false ∧
     (breakerAfterThreeFailures "s" 0 0 0).isOpen = true ∧
     (breakerAfterThreeFailures "s" 0 0 0).failures = 3 ∧
     callAgentServer (breakerAfterThreeFailures "s" 0 0 0) "a" 0 (fun _ => none) =
       { plan := none,
         errorMsg := some (unavailableMessage (5 * 60 * 1000 - ((0 : Nat) - 0))),
         breaker := breakerAfterThreeFailures "s" 0 0 0,
         connection := "a", networkAttempts := 0 } ∧
     1 ≤ (callAgentServer (breakerAfterThreeFailures "s" 0 0 0) "b" 300001
           (fun _ => none)).networkAttempts ∧
     (∀ (cb : CircuitBreaker) (now : Nat) (oo : Nat → Option PlanResponse),
       (callAgentServer cb "c" now oo).errorMsg = none →
         (callAgentServer cb "c" now oo).breaker.failures = 0 ∧
           (callAgentServer cb "c" now oo).breaker.isOpen = false)) :=
  ⟨by decide, by decide,
   c3_circuit_breaker "s" "a" "b" "c" 0 0 0 0 300001 (fun _ => none)
     (by decide) (by decide)⟩

/-- Appending to a non-empty string never yields the empty string. -/
theorem string_append_ne_empty (s t : String) (hs : s.data ≠ []) : s ++ t ≠ "" := by
  intro hcontra
  apply hs
  cases s with | mk a => ?_
  cases t with | mk b => ?_
  have hdata : a ++ b = ([] : List Char) := congrArg String.data hcontra
  simpa using (List.append_eq_nil.mp hdata).1

/-- One `RUN_NEXT_STEP` round either leaves the whole background state
alone (no steps left, or the safety gate refused) or advances the cursor
by exactly one over unchanged steps. -/
theorem handleRunNext_state (content : Step → ExecResult) (st : BackgroundState)
    (page : PageSnapshot) :
    (handleRunNext content st page).2 = st ∨
    ((handleRunNext content st page).2.plan.idx = st.plan.idx + 1 ∧
     (handleRunNext content st page).2.plan.steps = st.plan.steps ∧
     st.plan.idx < st.plan.steps.length) := by
  by_cases h : st.plan.idx < st.plan.steps.length
  · by_cases hR : isRiskyStep st.plan.steps[st.plan.idx] page
    · left; simp [handleRunNext, h, hR]
    · right
      by_cases hE : (executeStep content st.plan.steps[st.plan.idx]).ok = false ∧
          jsTruthy (executeStep content st.plan.steps[st.plan.idx]).error = true
      · simp [handleRunNext, h, hR, hE]
      · simp [handleRunNext, h, hR, hE]
  · left; simp [handleRunNext, h]

/-- C4: when the safety gate blocks the pending step, `RUN_NEXT_STEP`
returns only the refusal, the whole background state — cursor, steps and
circuit-breaker counters — is unchanged, an immediately repeated call is
the very same evaluation, and the sidebar bookkeeping (which sees no
`ranIndex`) moves neither a step status nor its own cursor. -/
theorem c4_safety_block_preserves_state (content : Step → ExecResult)
    (st : BackgroundState) (page : PageSnapshot)
    (h : st.plan.idx < st.plan.steps.length)
    (hRisky : isRiskyStep st.plan.steps[st.plan.idx] page = true) :
    handleRunNext content st page = ({ error := some blockedMessage }, st) ∧
    (handleRunNext content st page).2 = st ∧
    (handleRunNext content st page).2.breaker.failures = st.breaker.failures ∧
    handleRunNext content (handleRunNext content st page).2 page =
      handleRunNext content st page ∧
    (∀ (statuses : List StepStatus) (curIdx : Nat),
      applyStepResult statuses curIdx (handleRunNext content st page).1 =
        (statuses, curIdx)) := by
  have h1 : handleRunNext content st page = ({ error := some blockedMessage }, st) := by
    simp [handleRunNext, h, hRisky]
  refine ⟨h1, by rw [h1], by rw [h1], ?_, ?_⟩
  · rw [h1]; exact h1
  · intro statuses curIdx
    rw [h1]
    simp [applyStepResult]

/-- A benign page address for the execution fixtures. -/
def benignPage : PageSnapshot := { url := "https://example.org/" }

/-- A checkout page address, which trips the URL risk check. -/
def checkoutPage : PageSnapshot := { url := "https://shop.example/checkout" }

/-- A one-step plan holding a CLICK on `#buy`, with a fresh breaker. -/
def clickBuyState : BackgroundState :=
  { plan := { steps := [{ tool := "CLICK", selector := "#buy" }], idx := 0, summary := "" }
    breaker := initialBreaker }

/-- A one-step plan holding a CLICK on `#a`, with a fresh breaker. -/
def clickAState : BackgroundState :=
  { plan := { steps := [{ tool := "CLICK", selector := "#a" }], idx := 0, summary := "" }
    breaker := initialBreaker }

/-- A one-step plan holding the unsupported tool tag HOVER. -/
def hoverState : BackgroundState :=
  { plan := { steps := [{ tool := "HOVER", selector := "#el" }], idx := 0, summary := "" }
    breaker := initialBreaker }

/-- A content script that reports success for every tool. -/
def okContent : Step → ExecResult := fun _ => { ok := true }

/-- A content script that fails every tool with a not-found error. -/
def failContentA : Step → ExecResult :=
  fun _ => { ok := false, error := some "Element not found: #a" }

/-- Witness for C4: a CLICK step pending on a checkout page. -/
theorem c4_safety_block_witness :
    ((0 : Nat) < clickBuyState.plan.steps.length) ∧
    handleRunNext okContent clickBuyState checkoutPage =
      ({ error := some blockedMessage }, clickBuyState) :=
  ⟨by decide,
   (c4_safety_block_preserves_state okContent clickBuyState checkoutPage
     (by decide) (by decide)).1⟩

/-- C5: the cursor never decreases across `RUN_NEXT_STEP` calls and never
leaves the `[0, steps.length]` range; a step whose execution fails still
comes back with its index and error while the cursor advances by one, and
the sidebar then marks exactly that index `failed` and advances its own
cursor — failed steps are consumed, not retried. -/
theorem c5_cursor_invariants :
    (∀ (content : Step → ExecResult) (st : BackgroundState) (page : PageSnapshot),
      st.plan.idx ≤ (handleRunNext content st page).2.plan.idx) ∧
    (∀ (content : Step → ExecResult) (st : BackgroundState) (page : PageSnapshot),
      st.plan.idx ≤ st.plan.steps.length →
        (handleRunNext content st page).2.plan.idx ≤ st.plan.steps.length) ∧
    (∀ (content : Step → ExecResult) (st : BackgroundState) (page : PageSnapshot)
      (e : String) (h : st.plan.idx < st.plan.steps.length),
      isRiskyStep st.plan.steps[st.plan.idx] page = false →
      executeStep content st.plan.steps[st.plan.idx] = { ok := false, error := some e } →
      e ≠ "" →
        (handleRunNext content st page).1.ranIndex = some st.plan.idx ∧
        (handleRunNext content st page).1.error = some e ∧
        (handleRunNext content st page).2.plan.idx = st.plan.idx + 1) ∧
    (∀ (statuses : List StepStatus) (curIdx : Nat) (resp : RunNextResponse)
      (ri : Nat) (e : String),
      resp.ranIndex = some ri → resp.error = some e → e ≠ "" →
        (applyStepResult statuses curIdx resp).2 = curIdx + 1 ∧
        ∀ _ : ri < statuses.length,
          (applyStepResult statuses curIdx resp).1.get? ri = some .failed) := by
  refine ⟨?_, ?_, ?_, ?_⟩
  · intro content st page
    rcases handleRunNext_state content st page with hst | ⟨hidx, -, -⟩
    · rw [hst]
    · rw [hidx]; exact Nat.le_succ _
  · intro content st page hle
    rcases handleRunNext_state content st page with hst | ⟨hidx, -, hlt⟩
    · rw [hst]; exact hle
    · rw [hidx]; omega
  · intro content st page e h hSafe hExec he
    simp [handleRunNext, h, hSafe, hExec, jsTruthy, he]
  · intro statuses curIdx resp ri e hran herr he
    constructor
    · simp [applyStepResult, hran]
    · intro hri
      simp only [applyStepResult, hran]
      have hlen : ri < (statuses.mapIdx
          (fun i s => if i = ri then
            (if jsTruthy resp.error then StepStatus.failed else .completed) else s)).length := by
        simpa [List.length_mapIdx] using hri
      rw [List.get?_eq_get hlen, List.get_mapIdx statuses _ ri hri]
      simp [herr, jsTruthy, he]

/-- Witness for C5: a one-step plan whose CLICK fails with a
selector-not-found error on a benign page. -/
theorem c5_cursor_invariants_witness :
    (clickAState.plan.idx ≤
      (handleRunNext failContentA clickAState benignPage).2.plan.idx) ∧
    ((handleRunNext failContentA clickAState benignPage).1.ranIndex = some 0) ∧
    ((handleRunNext failContentA clickAState benignPage).2.plan.idx = 1) ∧
    ((applyStepResult [.running] 0
        (handleRunNext failContentA clickAState benignPage).1).2 = 1) ∧
    ((applyStepResult [.running] 0
        (handleRunNext failContentA clickAState benignPage).1).1.get? 0 = some .failed) :=
  ⟨c5_cursor_invariants.1 _ _ _,
   (c5_cursor_invariants.2.2.1 failContentA clickAState benignPage "Element not found: #a"
     (by decide) (by decide) (by decide) (by decide)).1,
   (c5_cursor_invariants.2.2.1 failContentA clickAState benignPage "Element not found: #a"
     (by decide) (by decide) (by decide) (by decide)).2.2,
   (c5_cursor_invariants.2.2.2 [.running] 0 _ 0 "Element not found: #a"
     (by decide) (by decide) (by decide)).1,
   (c5_cursor_invariants.2.2.2 [.running] 0 _ 0 "Element not found: #a"
     (by decide) (by decide) (by decide)).2 (by decide)⟩

/-- C6: a page whose lowercased address contains any word of the fixed
risk list makes the safety gate block every step, whatever its tool or
target. -/
theorem c6_risky_url_blocks_all_steps (page : PageSnapshot)
    (h : riskyWords.any (fun w => containsSub (strToLower page.url) w) = true) :
    ∀ step : Step, isRiskyStep step page = true := by
  intro step
  simp [isRiskyStep, h]

/-- Witness for C6: a checkout address blocks even a plain NAVIGATE
step. -/
theorem c6_risky_url_witness :
    riskyWords.any (fun w =>
      containsSub (strToLower (PageSnapshot.url
        { url := "https://shop.example/checkout/cart" })) w) = true ∧
    isRiskyStep { tool := "NAVIGATE", url := "https://example.org" }
      { url := "https://shop.example/checkout/cart" } = true :=
  ⟨by decide,
   c6_risky_url_blocks_all_steps { url := "https://shop.example/checkout/cart" } (by decide)
     { tool := "NAVIGATE", url := "https://example.org" }⟩

/-- C9: a step whose tool tag is none of CLICK, TYPE, SCROLL, NAVIGATE
makes `executeStep` return the unknown-tool error record instead of
raising, and `RUN_NEXT_STEP` (when the gate does not block) reports that
error with the index that ran while the cursor still advances by one over
unchanged steps, so the step is consumed exactly once. -/
theorem c9_unknown_tool_consumed_once (content : Step → ExecResult)
    (st : BackgroundState) (page : PageSnapshot)
    (h : st.plan.idx < st.plan.steps.length)
    (hTool : st.plan.steps[st.plan.idx].tool ∉
      (["CLICK", "TYPE", "SCROLL", "NAVIGATE"] : List String))
    (hSafe : isRiskyStep st.plan.steps[st.plan.idx] page = false) :
    executeStep content st.plan.steps[st.plan.idx] =
      { ok := false,
        error := some ("Unknown tool: " ++ st.plan.steps[st.plan.idx].tool) } ∧
    (handleRunNext content st page).1.ranIndex = some st.plan.idx ∧
    (handleRunNext content st page).1.error =
      some ("Unknown tool: " ++ st.plan.steps[st.plan.idx].tool) ∧
    (handleRunNext content st page).2.plan.idx = st.plan.idx + 1 ∧
    (handleRunNext content st page).2.plan.steps = st.plan.steps := by
  simp only [List.mem_cons, List.mem_singleton, not_or] at hTool
  obtain ⟨h1, h2, h3, h4, -⟩ :=
    (by simpa [not_or] using hTool :
      st.plan.steps[st.plan.idx].tool ≠ "CLICK" ∧
      st.plan.steps[st.plan.idx].tool ≠ "TYPE" ∧
      st.plan.steps[st.plan.idx].tool ≠ "SCROLL" ∧
      st.plan.steps[st.plan.idx].tool ≠ "NAVIGATE" ∧ True)
  have hexec : executeStep content st.plan.steps[st.plan.idx] =
      { ok := false,
        error := some ("Unknown tool: " ++ st.plan.steps[st.plan.idx].tool) } := by
    simp [executeStep, h1, h2, h3, h4]
  have hmsg : ("Unknown tool: " ++ st.plan.steps[st.plan.idx].tool) ≠ "" :=
    string_append_ne_empty _ _ (by decide)
  refine ⟨hexec, ?_⟩
  simp [handleRunNext, h, hSafe, hexec, jsTruthy, hmsg]

/-- Witness for C9: a one-step plan carrying the unsupported tool tag
HOVER on a benign page. -/
theorem c9_unknown_tool_witness :
    executeStep okContent hoverState.plan.steps[0] =
      { ok := false, error := some "Unknown tool: HOVER" } ∧
    (handleRunNext okContent hoverState benignPage).2.plan.idx = 1 :=
  ⟨(c9_unknown_tool_consumed_once okContent hoverState benignPage
      (by decide) (by decide) (by decide)).1,
   (c9_unknown_tool_consumed_once okContent hoverState benignPage
      (by decide) (by decide) (by decide)).2.2.2.1⟩

/-- An empty plan state, as before any planning request. -/
def emptyPlanState : PlanState := { steps := [], idx := 0, summary := "" }

/-- A fixed plan returned by the sample backend. -/
def samplePlan : PlanResponse :=
  { summary := "planned", steps := [{ tool := "SCROLL", deltaY := some 900 }] }

/-- A planning backend that answers every payload with `samplePlan`. -/
def sampleServer : PlanPayload → Except String PlanResponse := fun _ => .ok samplePlan

/-- C7: an `AGENT_REQUEST` whose active document address is missing or
uses one of the privileged schemes (about:, moz-extension:, view-source:,
chrome:) is answered with the fixed refusal message, with no page
observation and no payload sent to the planning backend, and the stored
plan untouched. -/
theorem c7_restricted_origin_refused (st : PlanState) (text : String)
    (tabUrl : Option String) (page : PageSnapshot) (shot : Except String String)
    (server : PlanPayload → Except String PlanResponse)
    (h : tabUrl = none ∨ ∃ u, tabUrl = some u ∧
      (u = "" ∨ strStartsWith u "about:" = true ∨ strStartsWith u "moz-extension:" = true ∨
        strStartsWith u "view-source:" = true ∨ strStartsWith u "chrome:" = true)) :
    handleAgentRequest st text tabUrl page shot server =
      { response := { error := some refusalMessage }, observed := false,
        sentPayload := none, plan := st } := by
  have hr : restrictedUrl tabUrl = true := by
    rcases h with rfl | ⟨u, rfl, hu⟩
    · rfl
    · simp only [restrictedUrl, Bool.or_eq_true, decide_eq_true_eq]
      tauto
  simp [handleAgentRequest, hr]

/-- Witness for C7: a request from `about:config`. -/
theorem c7_restricted_origin_witness :
    (some "about:config" = (none : Option String) ∨
      ∃ u, some "about:config" = some u ∧
        (u = "" ∨ strStartsWith u "about:" = true ∨
          strStartsWith u "moz-extension:" = true ∨
          strStartsWith u "view-source:" = true ∨ strStartsWith u "chrome:" = true)) ∧
    handleAgentRequest emptyPlanState "summarize this page" (some "about:config")
        {} (.ok "data:image/png;base64,xyz") sampleServer =
      { response := { error := some refusalMessage }, observed := false,
        sentPayload := none, plan := emptyPlanState } :=
  ⟨Or.inr ⟨"about:config", rfl, Or.inr (Or.inl (by decide))⟩,
   c7_restricted_origin_refused emptyPlanState "summarize this page" (some "about:config")
     {} (.ok "data:image/png;base64,xyz") sampleServer
     (Or.inr ⟨"about:config", rfl, Or.inr (Or.inl (by decide))⟩)⟩

/-- C10: a throwing screenshot capture becomes `null`, and an
`AGENT_REQUEST` on an ordinary page still sends the planning backend a
payload whose `screenshotDataUrl` is `null`, stores the returned plan with
the cursor reset, and echoes its summary and steps. -/
theorem c10_screenshot_failure_not_fatal (st : PlanState) (text u : String)
    (page : PageSnapshot) (err : String)
    (server : PlanPayload → Except String PlanResponse) (pr : PlanResponse)
    (hu : restrictedUrl (some u) = false)
    (hs : server { userRequest := text, page := page, screenshotDataUrl := none } = .ok pr) :
    captureScreenshot (.error err) = none ∧
    handleAgentRequest st text (some u) page (.error err) server =
      { response := { summary := some pr.summary, steps := some pr.steps },
        observed := true,
        sentPayload := some { userRequest := text, page := page, screenshotDataUrl := none },
        plan := { steps := pr.steps, idx := 0, summary := pr.summary } } := by
  refine ⟨rfl, ?_⟩
  simp [handleAgentRequest, hu, captureScreenshot, hs]

/-- Witness for C10: capture throws "boom" on an ordinary page and the
sample backend plan still comes back. -/
theorem c10_screenshot_failure_witness :
    restrictedUrl (some "https://example.org/") = false ∧
    sampleServer { userRequest := "go", page := {}, screenshotDataUrl := none } =
      .ok samplePlan ∧
    handleAgentRequest emptyPlanState "go" (some "https://example.org/") {}
        (.error "boom") sampleServer =
      { response := { summary := some samplePlan.summary, steps := some samplePlan.steps },
        observed := true,
        sentPayload := some { userRequest := "go", page := {}, screenshotDataUrl := none },
        plan := { steps := samplePlan.steps, idx := 0, summary := samplePlan.summary } } :=
  ⟨by decide, rfl,
   (c10_screenshot_failure_not_fatal emptyPlanState "go" "https://example.org/" {}
     "boom" sampleServer samplePlan (by decide) rfl).2⟩

/-- A `slice(0, n)` result never yields more than `n` characters. -/
theorem strTake_length_le (s : String) (n : Nat) : (strTake s n).length ≤ n := by
  show (s.data.take n).length ≤ n
  simp only [List.length_take]
  omega

/-- The extraction loop keeps exactly the first `MAX_CANDIATES - count`
visible elements, mapped to candidate records, in document order. -/
theorem extractCandidatesGo_take (sel : RawElement → String) (vp : Viewport) :
    ∀ (els : List RawElement) (count : Nat), count < MAX_CANDIATES →
      extractCandidatesGo sel vp els count =
        ((els.filter (fun el => isVisible vp el)).map (mkCandidate sel)).take
          (MAX_CANDIATES - count) := by
  intro els
  induction els with
  | nil =>
    intro count _
    simp [extractCandidatesGo]
  | cons el rest ih =>
    intro count hcount
    rw [extractCandidatesGo]
    by_cases hv : isVisible vp el
    · by_cases hmax : MAX_CANDIATES ≤ count + 1
      · have hc : MAX_CANDIATES - count = 1 := by
          simp only [MAX_CANDIATES] at hcount hmax ⊢
          omega
        simp [hv, hmax, List.filter_cons, hc]
      · have hc : MAX_CANDIATES - count = (MAX_CANDIATES - (count + 1)) + 1 := by
          simp only [MAX_CANDIATES] at hcount hmax ⊢
          omega
        have hlt : count + 1 < MAX_CANDIATES := by
          simp only [MAX_CANDIATES] at hcount hmax ⊢
          omega
        simp only [hv, if_true, hmax, if_false, List.filter_cons, List.map_cons, hc,
          List.take_succ_cons]
        rw [ih (count + 1) hlt]
    · simp only [hv, Bool.false_eq_true, if_false, List.filter_cons]
      rw [ih count hcount]

/-- Every field of a pushed candidate record respects its slice cap. -/
theorem mkCandidate_bounds (sel : RawElement → String) (el : RawElement) :
    (mkCandidate sel el).text.length ≤ 80 ∧ (mkCandidate sel el).ariaLabel.length ≤ 80 ∧
    (mkCandidate sel el).placeholder.length ≤ 80 ∧ (mkCandidate sel el).name.length ≤ 80 ∧
    (mkCandidate sel el).type.length ≤ 30 ∧ (mkCandidate sel el).href.length ≤ 120 :=
  ⟨strTake_length_le _ _, strTake_length_le _ _, strTake_length_le _ _,
   strTake_length_le _ _, strTake_length_le _ _, strTake_length_le _ _⟩

/-- C8: every snapshot holds at most 60 candidates, namely the first 60
visible elements in document order; every text-like candidate field obeys
its cap (80 characters, 120 for href, 30 for type); and the page text is
truncated to at most 40000 characters — all regardless of document
size. -/
theorem c8_snapshot_bounds (sel : RawElement → String) (vp : Viewport)
    (els : List RawElement) (bodyText : String) :
    (extractCandidates sel vp els).length ≤ MAX_CANDIATES ∧
    extractCandidates sel vp els =
      ((els.filter (fun el => isVisible vp el)).map (mkCandidate sel)).take MAX_CANDIATES ∧
    (∀ c ∈ extractCandidates sel vp els,
      c.text.length ≤ 80 ∧ c.ariaLabel.length ≤ 80 ∧ c.placeholder.length ≤ 80 ∧
      c.name.length ≤ 80 ∧ c.type.length ≤ 30 ∧ c.href.length ≤ 120) ∧
    (visibleText bodyText).length ≤ MAX_VISIBLE_TEXT_LENGTH := by
  have hchar : extractCandidates sel vp els =
      ((els.filter (fun el => isVisible vp el)).map (mkCandidate sel)).take MAX_CANDIATES := by
    have h0 := extractCandidatesGo_take sel vp els 0 (by decide)
    simpa [extractCandidates] using h0
  refine ⟨?_, hchar, ?_, ?_⟩
  · rw [hchar]
    simp only [List.length_take]
    omega
  · intro c hc
    rw [hchar] at hc
    have hc2 := List.take_subset _ _ hc
    obtain ⟨el, -, rfl⟩ := List.mem_map.mp hc2
    exact mkCandidate_bounds sel el
  · exact strTake_length_le _ _

/-- A visible search input as the collector would see it. -/
def sampleElement : RawElement :=
  { tagName := "INPUT"
    rectWidth := 10
    rectHeight := 10
    rectTop := 0
    rectBottom := 10
    rectLeft := 0
    rectRight := 10
    display := "block"
    visibility := "visible"
    opacity := "1"
    innerText := ""
    textContent := ""
    ariaLabel := ""
    placeholder := "Search"
    nameAttr := "q"
    typeAttr := "text"
    href := "" }

/-- A plain viewport. -/
def sampleViewport : Viewport := { innerHeight := 800, innerWidth := 600 }

/-- A selector generator fixture. -/
def sampleSelectorFn : RawElement → String := fun _ => "#q"

/-- Witness for C8: the collector on one visible element produces a
candidate inside the bounds. -/
theorem c8_snapshot_bounds_witness :
    (mkCandidate sampleSelectorFn sampleElement ∈
      extractCandidates sampleSelectorFn sampleViewport [sampleElement]) ∧
    ((mkCandidate sampleSelectorFn sampleElement).text.length ≤ 80 ∧
      (mkCandidate sampleSelectorFn sampleElement).ariaLabel.length ≤ 80 ∧
      (mkCandidate sampleSelectorFn sampleElement).placeholder.length ≤ 80 ∧
      (mkCandidate sampleSelectorFn sampleElement).name.length ≤ 80 ∧
      (mkCandidate sampleSelectorFn sampleElement).type.length ≤ 30 ∧
      (mkCandidate sampleSelectorFn sampleElement).href.length ≤ 120) ∧
    (visibleText "hello").length ≤ MAX_VISIBLE_TEXT_LENGTH :=
  ⟨by decide,
   (c8_snapshot_bounds sampleSelectorFn sampleViewport [sampleElement] "hello").2.2.1
     (mkCandidate sampleSelectorFn sampleElement) (by decide),
   (c8_snapshot_bounds sampleSelectorFn sampleViewport [sampleElement] "hello").2.2.2⟩

end ZenAgent
